import Mathlib

/-!
# Verification of the chat-router application (`src/app.py`)

A shallow embedding of the request router, the password-reset flow, the
weather helper, the title generator and the `/history/generate` handler of
`src/app.py`, together with theorems settling the specification claims.

Python-level conventions used throughout the embedding:

* A JSON chat message is a record with a `role` and a `content` field.  A
  `content` value that is not a string (for example JSON `null`) is modelled
  as `none`; Python raises a `TypeError` or `AttributeError` when string
  operations are applied to such a value.
* Calls to external collaborators (the LLM completion service, the Microsoft
  Graph directory, the Cosmos document store, the weather API, the header
  based authentication layer) are modelled as oracle fields of environment
  records; each oracle value is the outcome the external service would
  produce for the request at hand.  `Except String A` models a Python call
  that either returns an `A` or raises an exception carrying a message.
* `random.choices(population, k=16)` is modelled by a seed function
  `Nat → Nat`; draw `i` selects `population[seed i % population.length]`,
  which for a uniformly distributed seed is exactly a uniform independent
  choice from the population, with replacement.
* Side effects that the claims talk about (directory patches, audit-log
  emissions, Cosmos writes, weather-API calls) are collected in an explicit
  event trace.
-/

/-- Python substring containment (`pat in l`) on lists of characters:
true iff `pat` occurs contiguously inside `l`. -/
def listContainsSub (pat : List Char) : List Char → Bool
  | [] => pat.isEmpty
  | c :: rest => pat.isPrefixOf (c :: rest) || listContainsSub pat rest

/-- Python substring containment on strings: `strContains s pat` is the
Python expression `pat in s`. -/
def strContains (s pat : String) : Bool :=
  listContainsSub pat.toList s.toList

/-- Python `str.split(sep)` on character lists: scan left to right,
cutting at every non-overlapping occurrence of the (nonempty) separator.
The fuel argument, initialized to the list length, only makes the recursion
structural; a cut consumes at least one character, so fuel never runs out
before the list does. -/
def pySplitGo (sep : List Char) : Nat → List Char → List Char → List (List Char)
  | _, acc, [] => [acc.reverse]
  | 0, acc, l => [acc.reverse ++ l]
  | fuel + 1, acc, c :: rest =>
    if ¬sep.isEmpty ∧ sep.isPrefixOf (c :: rest) then
      acc.reverse :: pySplitGo sep fuel [] ((c :: rest).drop sep.length)
    else
      pySplitGo sep fuel (c :: acc) rest

/-- Python `s.split(sep)`. -/
def pySplit (s sep : String) : List String :=
  (pySplitGo sep.toList s.toList.length [] s.toList).map String.mk

/-- Python `str.isspace` on a single character: the exact CPython set
U+0009-U+000D, U+001C-U+001F, space, U+0085, U+00A0, U+1680,
U+2000-U+200A, U+2028, U+2029, U+202F, U+205F and U+3000. -/
def pyIsSpace (c : Char) : Bool :=
  (9 ≤ c.toNat && c.toNat ≤ 13) || (28 ≤ c.toNat && c.toNat ≤ 31)
    || c.toNat == 32 || c.toNat == 133 || c.toNat == 160 || c.toNat == 5760
    || (8192 ≤ c.toNat && c.toNat ≤ 8202) || c.toNat == 8232 || c.toNat == 8233
    || c.toNat == 8239 || c.toNat == 8287 || c.toNat == 12288

/-- Python `s.strip()`: remove leading and trailing whitespace, where
whitespace is judged by `str.isspace`. -/
def pyStrip (s : String) : String :=
  String.mk (((s.toList.dropWhile pyIsSpace).reverse.dropWhile
    pyIsSpace).reverse)

/-- Python `s.lower()` (ASCII case folding, as in every string this
application lowers). -/
def pyLower (s : String) : String :=
  String.mk (s.toList.map Char.toLower)

/-- A chat message as it appears in the request JSON.  `content = none`
models a `content` field that is not a string (for example JSON `null`). -/
structure Message where
  role : String
  content : Option String
deriving DecidableEq

/-- Observable side effects of handling one request. -/
inductive Event where
  /-- A Microsoft Graph `PATCH /users/{username}` carrying the freshly
  generated password was issued (`graph_client.patch` in
  `reset_user_password`). -/
  | graphPatch (username password : String)
  /-- Call `log_password_reset username` ran (the success audit record). -/
  | auditSuccess (username : String)
  /-- Call `log_failed_password_reset_attempt username error` ran (the failure
  audit record). -/
  | auditFailure (username error : String)
  /-- Call `cosmos_conversation_client.create_conversation` was invoked. -/
  | cosmosCreateConversation
  /-- Call `cosmos_conversation_client.create_message` was invoked. -/
  | cosmosCreateMessage
  /-- Call `get_weather location` was invoked (the weather adapter call). -/
  | weatherCall (location : String)
deriving DecidableEq

/-- The JSON value a handler hands back to Quart, with its HTTP status. -/
inductive Response where
  /-- Reply `jsonify({id, role: assistant, content}), status`. -/
  | assistant (content : String) (status : Nat)
  /-- Reply `jsonify({error: msg}), status`. -/
  | error (msg : String) (status : Nat)
  /-- Reply `jsonify(result)` from `complete_chat_request` (single JSON object). -/
  | chatJson (result : String)
  /-- The ndjson streaming response built from `stream_chat_request`. -/
  | ndjson (stream : String)
deriving DecidableEq

/-- A Python exception as observed at a handler boundary: its `str` form and
the optional `status_code` attribute inspected by `conversation_internal`. -/
structure PyExn where
  msg : String
  statusCode : Option Nat
deriving DecidableEq

/-- Modelled from the spec: the completion-client adapter used by the
general chat flow.  `complete_chat_request` and `stream_chat_request` are
called by `conversation_internal` but their bodies are not part of
`src/app.py`; per the spec the flow either relays the adapter result or the
adapter raises, so each is an oracle outcome here, together with the two
configuration flags `conversation_internal` reads. -/
structure ChatEnv where
  stream : Bool
  usePromptflow : Bool
  streamResult : Except PyExn String
  completeResult : Except PyExn String

/-- Modelled from the spec: the output of `get_authenticated_user_details`
(the external auth collaborator), a record carrying the principal id of the
authenticated end user; `user_principal_id = none` models a record whose
`user_principal_id` key is absent. -/
structure AuthenticatedUser where
  user_principal_id : Option String
deriving DecidableEq

/-- The JSON fields of the weather API reply that `get_weather` interpolates
into its message (numeric values are carried in their rendered form). -/
structure WeatherData where
  description : String
  temperature : String
  humidity : String
  wind_speed : String
deriving DecidableEq

/-- Oracle for the OpenWeatherMap HTTP call inside `get_weather`: the HTTP
status and the reply body fields. -/
structure WeatherEnv where
  status : Nat
  data : WeatherData
deriving DecidableEq

/-- Oracles for one run of `reset_user_password`: the outcome of
`init_graph_client`, the randomness behind `random.choices`, and the outcome
of the Graph `patch` call (exception, or an HTTP status code). -/
structure ResetEnv where
  graphInit : Except String Unit
  seed : Nat → Nat
  patchStatus : Except String Nat

/-- Full environment of one `/conversation` request. -/
structure ConvEnv where
  authUser : Option AuthenticatedUser
  reset : ResetEnv
  chat : ChatEnv

/-- What came out of the `conversation` handler: either a response it
returned, or an exception that escaped it (never caught inside the
handler). -/
inductive Outcome where
  | response (r : Response)
  | uncaught (e : String)
deriving DecidableEq

/-- Result of running the `conversation` handler: its outcome, the event
trace, and whether `reset_user_password` was invoked at all. -/
structure ConvResult where
  outcome : Outcome
  events : List Event
  resetInvoked : Bool
deriving DecidableEq

/-- Population `string.ascii_letters ++ string.digits ++ string.punctuation`, the
population `random.choices` draws from in `reset_user_password`, written via
character codes: `a`-`z`, `A`-`Z`, `0`-`9`, then ASCII punctuation
(codes 33-47, 58-64, 91-96, 123-126). -/
def PASSWORD_CHARS : List Char :=
  ((List.range 26).map (fun i => Char.ofNat (97 + i)))
    ++ ((List.range 26).map (fun i => Char.ofNat (65 + i)))
    ++ ((List.range 10).map (fun i => Char.ofNat (48 + i)))
    ++ (((List.range 15).map (fun i => 33 + i))
        ++ ((List.range 7).map (fun i => 58 + i))
        ++ ((List.range 6).map (fun i => 91 + i))
        ++ ((List.range 4).map (fun i => 123 + i))).map Char.ofNat

/-- The new password built in `reset_user_password`:
`join(random.choices(string.ascii_letters + string.digits +
string.punctuation, k=16))` over the empty separator, with draw `i` of the seed selecting index
`seed i % |population|`. -/
def generate_password (seed : Nat → Nat) : String :=
  String.mk ((List.range 16).map
    (fun i => PASSWORD_CHARS.getD (seed i % PASSWORD_CHARS.length) (Char.ofNat 97)))

/-- The clarification reply of `conversation` when no username resolves. -/
def CLARIFY_MSG : String :=
  "I\x27m sorry, but I couldn\x27t find your username in our conversation. Can you please provide your username?"

/-- The decline reply of `conversation` when the requester is not
authenticated or the principal id does not match the resolved username. -/
def DECLINE_MSG : String :=
  "I\x27m sorry, but I can\x27t reset your password because you\x27re not currently authenticated or the username doesn\x27t match your authenticated account. Please ensure you\x27re logged in with the correct account and try again."

/-- The apology reply of `conversation` on the exception path of the
password-reset branch. -/
def APOLOGY_MSG : String :=
  "I apologize, but I encountered an error while trying to reset your password. This might be due to a temporary issue with our password reset system. Please try again later or contact the IT support team for assistance."

/-- The part of the success reply that precedes the new password. -/
def SUCCESS_PRE : String :=
  "Your password has been reset successfully. Your new temporary password is: "

/-- The part of the success reply that follows the new password. -/
def SUCCESS_POST : String :=
  "\n\nPlease log in with this temporary password and change it to a strong, unique password of your choosing immediately.\n\nIs there anything else I can assist you with regarding your account or any other IT matters?"

/-- Function `get_weather` (src/app.py lines 60-82): formats the weather reply when
the HTTP status is 200, otherwise the explanatory failure message. -/
def get_weather (wenv : WeatherEnv) (location : String) : String :=
  if wenv.status = 200 then
    "Current weather in " ++ location ++ ": " ++ wenv.data.description
      ++ ". Temperature: " ++ wenv.data.temperature
      ++ "°C, Humidity: " ++ wenv.data.humidity
      ++ "%, Wind speed: " ++ wenv.data.wind_speed ++ " m/s."
  else
    "Unable to fetch weather data for " ++ location
      ++ ". Please check the location name and try again."

/-- The general chat body shared verbatim by both definitions of
`conversation_internal`: pick the streaming or the single-shot completion
call by configuration, relay the result, and reduce an exception to
`jsonify({error: str(ex)})` with `ex.status_code` when present, else 500. -/
def general_chat (cenv : ChatEnv) : Response :=
  if cenv.stream && !cenv.usePromptflow then
    match cenv.streamResult with
    | .ok s => .ndjson s
    | .error e => .error e.msg (e.statusCode.getD 500)
  else
    match cenv.completeResult with
    | .ok r => .chatJson r
    | .error e => .error e.msg (e.statusCode.getD 500)

/-- Function `conversation_internal` as it is bound at module level: the second
definition (src/app.py lines 325-342), which contains no weather branch. -/
def conversation_internal (cenv : ChatEnv) : Response :=
  general_chat cenv

/-- The first, weather-capable definition of `conversation_internal`
(src/app.py lines 85-99).  It is shadowed by the later redefinition at line
325 and therefore unreachable from the running module; it is embedded here
to state what it would do.  Its `try` block covers the last-message access,
so a non-string `content` is reduced to an error response rather than
escaping.  Returns the response together with the weather-adapter call
trace. -/
def conversation_internal_weather (cenv : ChatEnv) (wenv : WeatherEnv)
    (request_messages : Option (List Message)) : Response × List Event :=
  let messages := request_messages.getD []
  match messages.getLast? with
  | none => (general_chat cenv, [])
  | some lastMsg =>
    match lastMsg.content with
    | none =>
      (.error "\x27NoneType\x27 object has no attribute \x27lower\x27" 500, [])
    | some c =>
      let last_user_message := pyLower c
      if strContains last_user_message "weather in" then
        let location := pyStrip ((pySplit last_user_message "weather in").getLastD "")
        (.assistant (get_weather wenv location) 200, [.weatherCall location])
      else
        (general_chat cenv, [])

/-- Function `extract_username` (src/app.py lines 415-419): scan the messages in
reverse for one whose `content` contains the literal `Username:` marker and
return the text after the first marker, stripped.  A non-string `content`
raises a `TypeError` (Python `in` applied to a non-string), modelled as
`.error`. -/
def extract_username_scan : List Message → Except String (Option String)
  | [] => .ok none
  | m :: rest =>
    match m.content with
    | none => .error "argument of type \x27NoneType\x27 is not iterable"
    | some c =>
      if strContains c "Username:" then
        .ok (some (pyStrip ((pySplit c "Username:").getD 1 "")))
      else
        extract_username_scan rest

/-- Function `extract_username` runs the reverse scan over the message list. -/
def extract_username (messages : List Message) : Except String (Option String) :=
  extract_username_scan messages.reverse

/-- Function `extract_username_with_openai` (src/app.py lines 286-301) applied to the
completion reply content: strip it and treat the literal `Unknown` as "not
found". -/
def extract_username_with_openai (reply : String) : Option String :=
  let extracted := pyStrip reply
  if extracted = "Unknown" then none else some extracted

/-- Function `reset_user_password` (src/app.py lines 211-237): initialize the Graph
client, generate the password, patch the user; return the password only on
status 204, raise `Failed to reset password: {status}` on any other status,
re-raise adapter exceptions.  Also returns the directory-call trace. -/
def reset_user_password (env : ResetEnv) (username : String) :
    Except String String × List Event :=
  match env.graphInit with
  | .error e => (.error e, [])
  | .ok _ =>
    let new_password := generate_password env.seed
    match env.patchStatus with
    | .error e => (.error e, [.graphPatch username new_password])
    | .ok status =>
      if status = 204 then
        (.ok new_password, [.graphPatch username new_password])
      else
        (.error ("Failed to reset password: " ++ toString status),
          [.graphPatch username new_password])

/-- The password-reset branch of `conversation` (src/app.py lines 370-410):
the body of the `try` starting after the intent check, together with its
`except` clause.  The `except` clause emits the failure audit only when
`username` is already bound (`if \x27username\x27 in locals()`), so an
exception raised by `extract_username` itself produces the apology with no
audit record.  The guard `if not username:` at line 374 is a Python
truthiness test: both `None` and the empty string count as "no username
resolved" and produce the clarification reply. -/
def password_reset_branch (env : ConvEnv) (messages : List Message) : ConvResult :=
  match extract_username messages with
  | .error _ =>
    { outcome := .response (.assistant APOLOGY_MSG 200), events := [], resetInvoked := false }
  | .ok none =>
    { outcome := .response (.assistant CLARIFY_MSG 200), events := [], resetInvoked := false }
  | .ok (some username) =>
    if username == "" then
      { outcome := .response (.assistant CLARIFY_MSG 200), events := [], resetInvoked := false }
    else
    let authOk : Bool :=
      match env.authUser with
      | none => false
      | some u => u.user_principal_id == some username
    if !authOk then
      { outcome := .response (.assistant DECLINE_MSG 200), events := [], resetInvoked := false }
    else
      match reset_user_password env.reset username with
      | (.ok new_password, evs) =>
        { outcome := .response (.assistant (SUCCESS_PRE ++ new_password ++ SUCCESS_POST) 200),
          events := evs ++ [.auditSuccess username],
          resetInvoked := true }
      | (.error e, evs) =>
        { outcome := .response (.assistant APOLOGY_MSG 200),
          events := evs ++ [.auditFailure username e],
          resetInvoked := true }

/-- The `/conversation` handler bound at module level: the second
`conversation` definition (src/app.py lines 360-413).  The access
`request_json[\x27messages\x27][-1][\x27content\x27]` and the `.lower()`
call happen before any `try`, so a missing `messages` key, an empty message
list, or a non-string last `content` raises out of the handler
(`Outcome.uncaught`).  Otherwise the handler enters the password-reset
branch when the lowered last content contains `reset my password`, else
delegates to `conversation_internal`. -/
def conversation (env : ConvEnv) (isJson : Bool)
    (request_messages : Option (List Message)) : ConvResult :=
  if !isJson then
    { outcome := .response (.error "request must be json" 415), events := [], resetInvoked := false }
  else
    match request_messages with
    | none =>
      { outcome := .uncaught "\x27messages\x27", events := [], resetInvoked := false }
    | some messages =>
      match messages.getLast? with
      | none =>
        { outcome := .uncaught "list index out of range", events := [], resetInvoked := false }
      | some lastMsg =>
        match lastMsg.content with
        | none =>
          { outcome := .uncaught "\x27NoneType\x27 object has no attribute \x27lower\x27",
            events := [], resetInvoked := false }
        | some user_message =>
          if strContains (pyLower user_message) "reset my password" then
            password_reset_branch env messages
          else
            { outcome := .response (conversation_internal env.chat),
              events := [], resetInvoked := false }

/-- Function `generate_title` (src/app.py lines 809-828) with the completion call as
an oracle: return the generated title on success; if the completion call
raises, fall back to `conversation_messages[-2]["content"]`, which itself
raises an `IndexError` when the history holds fewer than two messages.  The
fallback hands back the raw `content` value (`Option String`). -/
def generate_title (completion : Except String String)
    (conversation_messages : List Message) : Except String (Option String) :=
  match completion with
  | .ok title => .ok (some title)
  | .error _ =>
    match conversation_messages.reverse with
    | _ :: m :: _ => .ok m.content
    | _ => .error "list index out of range"

-- Decidable equality for `Except`, used to evaluate concrete runs.
deriving instance DecidableEq for Except

/-- Lemma: `listContainsSub` decides contiguous containment (`List.IsInfix`). -/
theorem listContainsSub_iff (pat : List Char) :
    ∀ l : List Char, listContainsSub pat l = true ↔ pat <:+: l := by
  intro l
  induction l with
  | nil =>
    simp [listContainsSub, List.isEmpty_iff, List.infix_nil]
  | cons c rest ih =>
    simp [listContainsSub, List.infix_cons_iff, ih]

/-- Lemma: `strContains` is Python `in`: true iff the pattern occurs contiguously
inside the string. -/
theorem strContains_iff (s pat : String) :
    strContains s pat = true ↔ pat.toList <:+: s.toList :=
  listContainsSub_iff pat.toList s.toList

/-- Lemma: `String.toList` distributes over append. -/
theorem toList_append (a b : String) : (a ++ b).toList = a.toList ++ b.toList :=
  String.data_append a b

/-- Every window of `k` consecutive characters of `l` contains a space. -/
def hasSpaceInAllWindows (l : List Char) (k : Nat) : Bool :=
  (List.range (l.length + 1 - k)).all (fun i => ((l.drop i).take k).contains (Char.ofNat 32))

/-- The space character is not in the password population. -/
theorem space_not_password_char : Char.ofNat 32 ∉ PASSWORD_CHARS := by decide

/-- If every 16-character window of `l` contains a space, then no
16-character string over the password population occurs contiguously in
`l`. -/
theorem no_password_infix {l p : List Char}
    (hw : hasSpaceInAllWindows l 16 = true) (hp : p.length = 16)
    (hchars : ∀ c ∈ p, c ∈ PASSWORD_CHARS) : ¬ p <:+: l := by
  rintro ⟨s, t, hst⟩
  have hlen : l.length = s.length + 16 + t.length := by
    subst hst; simp [hp]; omega
  have hmem : s.length ∈ List.range (l.length + 1 - 16) := by
    rw [List.mem_range]; omega
  have hall := List.all_eq_true.mp hw _ hmem
  have hwin : (l.drop s.length).take 16 = p := by
    have : l = s ++ (p ++ t) := by rw [← hst]; simp
    rw [this, List.drop_left, ← hp, List.take_left]
  rw [hwin] at hall
  have hsp : Char.ofNat 32 ∈ p := List.elem_iff.mp hall
  exact space_not_password_char (hchars _ hsp)

/-- The generated credential has exactly 16 characters. -/
theorem generate_password_length (seed : Nat → Nat) :
    (generate_password seed).length = 16 := by
  simp [generate_password]

/-- Every character of the generated credential is drawn from the
letters/digits/punctuation population. -/
theorem generate_password_chars (seed : Nat → Nat) :
    ∀ c ∈ (generate_password seed).toList, c ∈ PASSWORD_CHARS := by
  intro c hc
  have hc' : c ∈ (List.range 16).map
      (fun i => PASSWORD_CHARS.getD (seed i % PASSWORD_CHARS.length) (Char.ofNat 97)) := hc
  rw [List.mem_map] at hc'
  obtain ⟨i, _, rfl⟩ := hc'
  have hlt : seed i % PASSWORD_CHARS.length < PASSWORD_CHARS.length :=
    Nat.mod_lt _ (by decide)
  rw [List.getD_eq_getElem _ _ hlt]
  exact List.getElem_mem hlt

/-- Every 16-character string over the population is a possible output of
the generator: the draw is over the full population (uniform over the union
of the character classes, given a uniform seed). -/
theorem generate_password_surjective (target : List Char) (hlen : target.length = 16)
    (hchars : ∀ c ∈ target, c ∈ PASSWORD_CHARS) :
    ∃ seed, generate_password seed = String.mk target := by
  refine ⟨fun i => PASSWORD_CHARS.indexOf (target.getD i (Char.ofNat 97)), ?_⟩
  unfold generate_password
  congr 1
  apply List.ext_getElem
  · simp [hlen]
  intro i h1 h2
  simp only [List.getElem_map, List.getElem_range]
  have hi : i < target.length := by simpa [hlen] using h2
  have hgd : target.getD i (Char.ofNat 97) = target[i] := List.getD_eq_getElem _ _ hi
  have hmem : target[i] ∈ PASSWORD_CHARS := hchars _ (List.getElem_mem hi)
  have hidx := List.indexOf_lt_length.mpr hmem
  simp only [hgd]
  rw [Nat.mod_eq_of_lt hidx, List.getD_eq_getElem _ _ hidx]
  exact List.indexOf_get hidx

/-- When the intent phrase is present in the lowered last message, the
handler runs exactly the password-reset branch. -/
theorem conversation_reset_dispatch (env : ConvEnv) (messages : List Message)
    (lastMsg : Message) (c : String)
    (hlast : messages.getLast? = some lastMsg)
    (hc : lastMsg.content = some c)
    (hintent : strContains (pyLower c) "reset my password" = true) :
    conversation env true (some messages) = password_reset_branch env messages := by
  simp [conversation, hlast, hc, hintent]

/-- Lemma: `reset_user_password` raises whenever the Graph client fails to
initialize, the patch call raises, or the patch status is not 204. -/
theorem reset_user_password_fails (renv : ResetEnv) (username : String)
    (hfail : (∃ e, renv.graphInit = .error e) ∨ (∃ e, renv.patchStatus = .error e)
      ∨ ∃ s, renv.patchStatus = .ok s ∧ s ≠ 204) :
    ∃ e evs, reset_user_password renv username = (.error e, evs) := by
  rcases hfail with ⟨e, he⟩ | ⟨e, he⟩ | ⟨s, hs, hne⟩
  · exact ⟨e, [], by simp [reset_user_password, he]⟩
  · cases hg : renv.graphInit with
    | error e2 => exact ⟨e2, [], by simp [reset_user_password, hg]⟩
    | ok _ =>
      exact ⟨e, [.graphPatch username (generate_password renv.seed)],
        by simp [reset_user_password, hg, he]⟩
  · cases hg : renv.graphInit with
    | error e2 => exact ⟨e2, [], by simp [reset_user_password, hg]⟩
    | ok _ =>
      refine ⟨"Failed to reset password: " ++ toString s,
        [.graphPatch username (generate_password renv.seed)], ?_⟩
      simp [reset_user_password, hg, hs, hne]

/-- Lemma: `reset_user_password` on a 204 patch returns the generated password and
the single directory-patch event. -/
theorem reset_user_password_ok (renv : ResetEnv) (username : String)
    (hinit : renv.graphInit = .ok ()) (hpatch : renv.patchStatus = .ok 204) :
    reset_user_password renv username =
      (.ok (generate_password renv.seed),
        [.graphPatch username (generate_password renv.seed)]) := by
  unfold reset_user_password
  rw [hinit, hpatch]
  simp

/-- The password-reset branch with a resolved username, a matching
authenticated principal and a failing directory call: apology plus failure
audit. -/
theorem password_reset_branch_failure (env : ConvEnv) (messages : List Message)
    (username : String) (u : AuthenticatedUser) (e : String) (evs : List Event)
    (hext : extract_username messages = .ok (some username))
    (hne : username ≠ "")
    (hauth : env.authUser = some u) (hpid : u.user_principal_id = some username)
    (hr : reset_user_password env.reset username = (.error e, evs)) :
    password_reset_branch env messages =
      { outcome := .response (.assistant APOLOGY_MSG 200),
        events := evs ++ [.auditFailure username e], resetInvoked := true } := by
  unfold password_reset_branch
  rw [hext]
  simp [hne, hauth, hpid, hr]

/-- The password-reset branch with a resolved username, a matching
authenticated principal and a successful directory call: credential reply
plus success audit. -/
theorem password_reset_branch_success (env : ConvEnv) (messages : List Message)
    (username : String) (u : AuthenticatedUser) (pwd : String) (evs : List Event)
    (hext : extract_username messages = .ok (some username))
    (hne : username ≠ "")
    (hauth : env.authUser = some u) (hpid : u.user_principal_id = some username)
    (hr : reset_user_password env.reset username = (.ok pwd, evs)) :
    password_reset_branch env messages =
      { outcome := .response (.assistant (SUCCESS_PRE ++ pwd ++ SUCCESS_POST) 200),
        events := evs ++ [.auditSuccess username], resetInvoked := true } := by
  unfold password_reset_branch
  rw [hext]
  simp [hne, hauth, hpid, hr]

set_option maxRecDepth 100000 in
set_option maxHeartbeats 1000000 in
/-- Every 16-character window of the apology message contains a space. -/
theorem apology_windows_have_space :
    hasSpaceInAllWindows APOLOGY_MSG.toList 16 = true := by decide

/-- The generated credential never occurs contiguously in the apology
message: the credential consists of 16 characters none of which is a space,
while the apology has no space-free run of 16 characters. -/
theorem password_not_in_apology (seed : Nat → Nat) :
    ¬ (generate_password seed).toList <:+: APOLOGY_MSG.toList :=
  no_password_infix apology_windows_have_space
    (generate_password_length seed) (generate_password_chars seed)

/-- The directory-call trace of `reset_user_password` holds only Graph
patch events for the given username. -/
theorem reset_user_password_events_shape (renv : ResetEnv) (username : String) :
    ∀ ev ∈ (reset_user_password renv username).2, ∃ pw, ev = .graphPatch username pw := by
  unfold reset_user_password
  cases h1 : renv.graphInit with
  | error e => simp
  | ok _ =>
    cases h2 : renv.patchStatus with
    | error e => simp
    | ok s =>
      by_cases h3 : s = 204 <;> simp [h3]

/-- No branch of the password-reset flow emits a weather-adapter event. -/
theorem no_weather_event_in_reset (env : ConvEnv) (messages : List Message)
    (loc : String) :
    Event.weatherCall loc ∉ (password_reset_branch env messages).events := by
  unfold password_reset_branch
  cases hext : extract_username messages with
  | error e => simp
  | ok uo =>
    cases uo with
    | none => simp
    | some username =>
      by_cases hu : username = ""
      · simp [hu]
      cases hA : env.authUser with
      | none => simp [hu]
      | some u =>
        cases hb : (u.user_principal_id == some username) with
        | false =>
          have hne : u.user_principal_id ≠ some username := by simpa using hb
          simp [hu, hne]
        | true =>
          have heq : u.user_principal_id = some username := by simpa using hb
          cases hr : reset_user_password env.reset username with
          | mk res evs =>
            have hshape := reset_user_password_events_shape env.reset username
            rw [hr] at hshape
            have hnot : Event.weatherCall loc ∉ evs := by
              intro hmem
              obtain ⟨pw, hpw⟩ := hshape _ hmem
              exact Event.noConfusion hpw
            cases res with
            | ok pwd => simp [hu, heq, hr, List.mem_append, hnot]
            | error e => simp [hu, heq, hr, List.mem_append, hnot]

/-- No run of the module-level `conversation` handler ever emits a
weather-adapter event: the weather-capable `conversation_internal` is
shadowed and unreachable. -/
theorem no_weather_event_in_conversation (env : ConvEnv) (isJson : Bool)
    (request_messages : Option (List Message)) (loc : String) :
    Event.weatherCall loc ∉ (conversation env isJson request_messages).events := by
  cases isJson with
  | false => simp [conversation]
  | true =>
    cases request_messages with
    | none => simp [conversation]
    | some messages =>
      cases hl : messages.getLast? with
      | none => simp [conversation, hl]
      | some lastMsg =>
        cases hc : lastMsg.content with
        | none => simp [conversation, hl, hc]
        | some c =>
          by_cases hi : strContains (pyLower c) "reset my password" = true
          · rw [conversation_reset_dispatch env messages lastMsg c hl hc hi]
            exact no_weather_event_in_reset env messages loc
          · simp only [Bool.not_eq_true] at hi
            simp [conversation, hl, hc, hi]

/-! ## Concrete request material for witnesses and counterexamples -/

/-- A non-streaming chat environment whose completion call succeeds. -/
def chatEnvA : ChatEnv := ⟨false, false, .ok "stream-result", .ok "chat-result"⟩

/-- A reset environment whose directory patch returns 204. -/
def resetEnvOk : ResetEnv := ⟨.ok (), fun _ => 0, .ok 204⟩

/-- A reset environment whose directory patch returns 500. -/
def resetEnvFail : ResetEnv := ⟨.ok (), fun _ => 0, .ok 500⟩

/-- A reset request whose history carries a `Username:` marker for alice. -/
def msgsAlice : List Message :=
  [⟨"user", some "reset my password Username: alice"⟩]

/-! ## Claims -/

/-- Claim C1: in the password-reset flow, for every request whose most
recent message contains `reset my password` (case-insensitive), if the
authenticated principal id derived from the request headers is absent or
does not equal the resolved username, the handler returns the decline
assistant message, and `reset_user_password` is not invoked (no directory
event is emitted). -/
theorem reset_decline_on_auth_mismatch (env : ConvEnv) (messages : List Message)
    (lastMsg : Message) (c username : String)
    (hlast : messages.getLast? = some lastMsg)
    (hc : lastMsg.content = some c)
    (hintent : strContains (pyLower c) "reset my password" = true)
    (hext : extract_username messages = .ok (some username))
    (hne : username ≠ "")
    (hauth : ∀ u, env.authUser = some u → u.user_principal_id ≠ some username) :
    conversation env true (some messages) =
      { outcome := .response (.assistant DECLINE_MSG 200),
        events := [], resetInvoked := false } := by
  rw [conversation_reset_dispatch env messages lastMsg c hlast hc hintent]
  unfold password_reset_branch
  rw [hext]
  cases hA : env.authUser with
  | none => simp [hne]
  | some u =>
    have hneu := hauth u hA
    simp [hne, hneu]

set_option maxRecDepth 100000 in
/-- Witness for C1: a concrete request with resolved username `alice` and
no authenticated principal is declined with no directory call. -/
theorem reset_decline_on_auth_mismatch_witness :
    conversation ⟨none, resetEnvOk, chatEnvA⟩ true (some msgsAlice) =
      { outcome := .response (.assistant DECLINE_MSG 200),
        events := [], resetInvoked := false } :=
  reset_decline_on_auth_mismatch ⟨none, resetEnvOk, chatEnvA⟩ msgsAlice
    ⟨"user", some "reset my password Username: alice"⟩
    "reset my password Username: alice" "alice"
    (by decide) (by decide) (by decide) (by decide) (by decide)
    (fun u h => Option.noConfusion h)

/-- Claim C2: in the password-reset flow, whenever the directory adapter
throws or the patch returns a status other than 204, the flow fails: the
response is the apology message, the generated credential does not occur
anywhere in it, and a failure audit record is emitted. -/
theorem reset_failure_no_credential_and_audit (env : ConvEnv)
    (messages : List Message) (lastMsg : Message) (c username : String)
    (u : AuthenticatedUser)
    (hlast : messages.getLast? = some lastMsg)
    (hc : lastMsg.content = some c)
    (hintent : strContains (pyLower c) "reset my password" = true)
    (hext : extract_username messages = .ok (some username))
    (hne : username ≠ "")
    (hauth : env.authUser = some u)
    (hpid : u.user_principal_id = some username)
    (hfail : (∃ e, env.reset.graphInit = .error e)
      ∨ (∃ e, env.reset.patchStatus = .error e)
      ∨ ∃ s, env.reset.patchStatus = .ok s ∧ s ≠ 204) :
    (conversation env true (some messages)).outcome
        = .response (.assistant APOLOGY_MSG 200) ∧
    (∃ e, Event.auditFailure username e ∈ (conversation env true (some messages)).events) ∧
    ¬ (generate_password env.reset.seed).toList <:+: APOLOGY_MSG.toList := by
  obtain ⟨e, evs, hr⟩ := reset_user_password_fails env.reset username hfail
  rw [conversation_reset_dispatch env messages lastMsg c hlast hc hintent,
    password_reset_branch_failure env messages username u e evs hext hne hauth hpid hr]
  refine ⟨rfl, ⟨e, ?_⟩, password_not_in_apology env.reset.seed⟩
  simp

set_option maxRecDepth 100000 in
/-- Witness for C2: a concrete request for `alice` with a matching
principal and a 500 directory status yields the apology, a failure audit
record, and no credential in the response. -/
theorem reset_failure_no_credential_and_audit_witness :
    (conversation ⟨some ⟨some "alice"⟩, resetEnvFail, chatEnvA⟩ true
        (some msgsAlice)).outcome = .response (.assistant APOLOGY_MSG 200) ∧
    (∃ e, Event.auditFailure "alice" e ∈
      (conversation ⟨some ⟨some "alice"⟩, resetEnvFail, chatEnvA⟩ true
        (some msgsAlice)).events) ∧
    ¬ (generate_password resetEnvFail.seed).toList <:+: APOLOGY_MSG.toList :=
  reset_failure_no_credential_and_audit ⟨some ⟨some "alice"⟩, resetEnvFail, chatEnvA⟩
    msgsAlice ⟨"user", some "reset my password Username: alice"⟩
    "reset my password Username: alice" "alice" ⟨some "alice"⟩
    (by decide) (by decide) (by decide) (by decide) (by decide) rfl rfl
    (Or.inr (Or.inr ⟨500, rfl, by decide⟩))

/-- A reset request whose earlier message has a non-string content, so
username resolution itself raises before a username is bound. -/
def msgsNullContent : List Message :=
  [⟨"user", none⟩, ⟨"user", some "please reset my password"⟩]

set_option maxRecDepth 100000 in
/-- Counterexample to C3: when username resolution raises before a username
is bound (here: a non-string `content` makes `extract_username` raise a
`TypeError`), the flow reaches the exception failure branch and returns the
apology, yet the event trace is empty — `log_failed_password_reset_attempt`
is never called, because the `except` clause guards the audit call with a
check that `username` is bound. -/
theorem reset_unbound_username_no_audit_cex :
    (conversation ⟨some ⟨some "alice"⟩, resetEnvFail, chatEnvA⟩ true
        (some msgsNullContent)).outcome = .response (.assistant APOLOGY_MSG 200) ∧
    (conversation ⟨some ⟨some "alice"⟩, resetEnvFail, chatEnvA⟩ true
        (some msgsNullContent)).events = [] := by
  exact ⟨by decide, by decide⟩

/-- Claim C3 (amended): on failure branches of the password-reset flow
reached by an exception after a username has been resolved, a failure audit
record is emitted before the apology is returned; but when the exception is
raised during username resolution, before any username is bound, the flow
returns the apology with no audit record at all. -/
theorem reset_exception_audit_amended (env : ConvEnv) (messages : List Message)
    (lastMsg : Message) (c : String)
    (hlast : messages.getLast? = some lastMsg)
    (hc : lastMsg.content = some c)
    (hintent : strContains (pyLower c) "reset my password" = true) :
    ((∃ e, extract_username messages = .error e) →
      conversation env true (some messages) =
        { outcome := .response (.assistant APOLOGY_MSG 200),
          events := [], resetInvoked := false }) ∧
    (∀ username u, extract_username messages = .ok (some username) →
      username ≠ "" →
      env.authUser = some u → u.user_principal_id = some username →
      ((∃ e, env.reset.graphInit = .error e)
        ∨ (∃ e, env.reset.patchStatus = .error e)
        ∨ ∃ s, env.reset.patchStatus = .ok s ∧ s ≠ 204) →
      (conversation env true (some messages)).outcome
          = .response (.assistant APOLOGY_MSG 200) ∧
      ∃ e, Event.auditFailure username e ∈
        (conversation env true (some messages)).events) := by
  rw [conversation_reset_dispatch env messages lastMsg c hlast hc hintent]
  constructor
  · rintro ⟨e, he⟩
    unfold password_reset_branch
    rw [he]
  · intro username u hext hne hauth hpid hfail
    obtain ⟨e, evs, hr⟩ := reset_user_password_fails env.reset username hfail
    rw [password_reset_branch_failure env messages username u e evs hext hne hauth hpid hr]
    refine ⟨rfl, e, ?_⟩
    simp

set_option maxRecDepth 100000 in
/-- Witness for the amended C3, exercising both conjuncts on concrete
requests: a resolution exception yields the apology with an empty trace,
and a failing directory call with a bound username yields a failure audit
record. -/
theorem reset_exception_audit_amended_witness :
    conversation ⟨some ⟨some "alice"⟩, resetEnvFail, chatEnvA⟩ true
        (some msgsNullContent) =
      { outcome := .response (.assistant APOLOGY_MSG 200),
        events := [], resetInvoked := false } ∧
    ∃ e, Event.auditFailure "alice" e ∈
      (conversation ⟨some ⟨some "alice"⟩, resetEnvFail, chatEnvA⟩ true
        (some msgsAlice)).events := by
  constructor
  · exact (reset_exception_audit_amended
      ⟨some ⟨some "alice"⟩, resetEnvFail, chatEnvA⟩ msgsNullContent
      ⟨"user", some "please reset my password"⟩ "please reset my password"
      (by decide) (by decide) (by decide)).1
      ⟨"argument of type \x27NoneType\x27 is not iterable", by decide⟩
  · exact ((reset_exception_audit_amended
      ⟨some ⟨some "alice"⟩, resetEnvFail, chatEnvA⟩ msgsAlice
      ⟨"user", some "reset my password Username: alice"⟩
      "reset my password Username: alice"
      (by decide) (by decide) (by decide)).2 "alice" ⟨some "alice"⟩
      (by decide) (by decide) rfl rfl (Or.inr (Or.inr ⟨500, rfl, by decide⟩))).2

/-- Claim C4: when the directory patch returns 204, the reply contains the
newly generated credential, the credential is exactly 16 characters long
and drawn only from the letters/digits/punctuation population (and every
16-character string over that population is a possible draw — the choice
ranges uniformly over the whole union), and a success audit record is
emitted with the same resolved username. -/
theorem reset_success_credential_and_audit (env : ConvEnv)
    (messages : List Message) (lastMsg : Message) (c username : String)
    (u : AuthenticatedUser)
    (hlast : messages.getLast? = some lastMsg)
    (hc : lastMsg.content = some c)
    (hintent : strContains (pyLower c) "reset my password" = true)
    (hext : extract_username messages = .ok (some username))
    (hne : username ≠ "")
    (hauth : env.authUser = some u)
    (hpid : u.user_principal_id = some username)
    (hinit : env.reset.graphInit = .ok ())
    (hpatch : env.reset.patchStatus = .ok 204) :
    (conversation env true (some messages)).outcome =
      .response (.assistant
        (SUCCESS_PRE ++ generate_password env.reset.seed ++ SUCCESS_POST) 200) ∧
    (generate_password env.reset.seed).toList <:+:
      (SUCCESS_PRE ++ generate_password env.reset.seed ++ SUCCESS_POST).toList ∧
    (generate_password env.reset.seed).length = 16 ∧
    (∀ ch ∈ (generate_password env.reset.seed).toList, ch ∈ PASSWORD_CHARS) ∧
    Event.auditSuccess username ∈ (conversation env true (some messages)).events ∧
    (∀ target : List Char, target.length = 16 →
      (∀ ch ∈ target, ch ∈ PASSWORD_CHARS) →
      ∃ seed, generate_password seed = String.mk target) := by
  rw [conversation_reset_dispatch env messages lastMsg c hlast hc hintent,
    password_reset_branch_success env messages username u
      (generate_password env.reset.seed)
      [.graphPatch username (generate_password env.reset.seed)]
      hext hne hauth hpid (reset_user_password_ok env.reset username hinit hpatch)]
  refine ⟨rfl, ?_, generate_password_length env.reset.seed,
    generate_password_chars env.reset.seed, by simp, generate_password_surjective⟩
  exact ⟨SUCCESS_PRE.toList, SUCCESS_POST.toList, by simp [toList_append]⟩

set_option maxRecDepth 100000 in
/-- Witness for C4: a concrete 204 run for `alice` returns the generated
credential inside the success reply and emits the success audit record. -/
theorem reset_success_credential_and_audit_witness :
    (conversation ⟨some ⟨some "alice"⟩, resetEnvOk, chatEnvA⟩ true
        (some msgsAlice)).outcome =
      .response (.assistant
        (SUCCESS_PRE ++ generate_password resetEnvOk.seed ++ SUCCESS_POST) 200) ∧
    (generate_password resetEnvOk.seed).toList <:+:
      (SUCCESS_PRE ++ generate_password resetEnvOk.seed ++ SUCCESS_POST).toList ∧
    (generate_password resetEnvOk.seed).length = 16 ∧
    (∀ ch ∈ (generate_password resetEnvOk.seed).toList, ch ∈ PASSWORD_CHARS) ∧
    Event.auditSuccess "alice" ∈
      (conversation ⟨some ⟨some "alice"⟩, resetEnvOk, chatEnvA⟩ true
        (some msgsAlice)).events ∧
    (∀ target : List Char, target.length = 16 →
      (∀ ch ∈ target, ch ∈ PASSWORD_CHARS) →
      ∃ seed, generate_password seed = String.mk target) :=
  reset_success_credential_and_audit ⟨some ⟨some "alice"⟩, resetEnvOk, chatEnvA⟩
    msgsAlice ⟨"user", some "reset my password Username: alice"⟩
    "reset my password Username: alice" "alice" ⟨some "alice"⟩
    (by decide) (by decide) (by decide) (by decide) (by decide) rfl rfl rfl rfl

/-- A request whose last message contains both the weather phrase and the
password-reset phrase. -/
def msgsBothPhrases : List Message :=
  [⟨"user", some "what\x27s the weather in Paris and reset my password"⟩]

set_option maxRecDepth 100000 in
/-- Counterexample to C5: a request containing both `weather in` and
`reset my password` does not take the weather branch — the handler checks
the reset phrase first, answers with the clarification message of the reset
message, and the weather adapter is never called. -/
theorem dispatch_weather_phrase_takes_reset_cex :
    strContains (pyLower "what\x27s the weather in Paris and reset my password")
        "weather in" = true ∧
    (conversation ⟨none, resetEnvOk, chatEnvA⟩ true (some msgsBothPhrases)).outcome
        = .response (.assistant CLARIFY_MSG 200) ∧
    (conversation ⟨none, resetEnvOk, chatEnvA⟩ true (some msgsBothPhrases)).events
        = [] := by
  exact ⟨by decide, by decide, by decide⟩

/-- Claim C5 (amended): the dispatch on the most recent message checks the
phrase `reset my password` first, so every request whose last message
contains it — in particular one also containing `weather in` — enters the
password-reset flow; and no run of the handler ever calls the weather
adapter, because the weather-capable `conversation_internal` definition is
shadowed by the later weather-free redefinition. -/
theorem dispatch_reset_precedence_amended (env : ConvEnv)
    (messages : List Message) (lastMsg : Message) (c : String)
    (hlast : messages.getLast? = some lastMsg)
    (hc : lastMsg.content = some c)
    (_hweather : strContains (pyLower c) "weather in" = true)
    (hreset : strContains (pyLower c) "reset my password" = true) :
    conversation env true (some messages) = password_reset_branch env messages ∧
    (∀ env2 isJson request_messages loc,
      Event.weatherCall loc ∉ (conversation env2 isJson request_messages).events) :=
  ⟨conversation_reset_dispatch env messages lastMsg c hlast hc hreset,
    fun env2 isJson request_messages loc =>
      no_weather_event_in_conversation env2 isJson request_messages loc⟩

set_option maxRecDepth 100000 in
/-- Witness for the amended C5 at the concrete combined-phrase request. -/
theorem dispatch_reset_precedence_amended_witness :
    conversation ⟨none, resetEnvOk, chatEnvA⟩ true (some msgsBothPhrases)
        = password_reset_branch ⟨none, resetEnvOk, chatEnvA⟩ msgsBothPhrases ∧
    (∀ env2 isJson request_messages loc,
      Event.weatherCall loc ∉ (conversation env2 isJson request_messages).events) :=
  dispatch_reset_precedence_amended ⟨none, resetEnvOk, chatEnvA⟩ msgsBothPhrases
    ⟨"user", some "what\x27s the weather in Paris and reset my password"⟩
    "what\x27s the weather in Paris and reset my password"
    (by decide) (by decide) (by decide) (by decide)

/-- Counterexample to C6: a JSON body whose `messages` list is empty (and
likewise one with no `messages` key) makes the handler raise before any
`try`, so the exception escapes the handler instead of being reduced to a
JSON error body. -/
theorem missing_messages_uncaught_cex :
    (conversation ⟨none, resetEnvOk, chatEnvA⟩ true (some [])).outcome
        = .uncaught "list index out of range" ∧
    (conversation ⟨none, resetEnvOk, chatEnvA⟩ true none).outcome
        = .uncaught "\x27messages\x27" :=
  ⟨rfl, rfl⟩

/-- Claim C6 (amended): exceptions raised inside the general chat flow are
caught and reduced to a JSON error body carrying the status code of the
exception (500 when it has none) — but the access to the last message happens
before any `try`, so a body lacking a non-empty `messages` list raises an
exception that propagates out of the handler uncaught. -/
theorem handler_error_reduction_amended :
    (∀ env, (conversation env true (some ([] : List Message))).outcome
        = .uncaught "list index out of range") ∧
    (∀ env, (conversation env true none).outcome = .uncaught "\x27messages\x27") ∧
    (∀ env messages lastMsg c pe,
      messages.getLast? = some lastMsg → lastMsg.content = some c →
      strContains (pyLower c) "reset my password" = false →
      env.chat.stream = false → env.chat.completeResult = .error pe →
      (conversation env true (some messages)).outcome =
        .response (.error pe.msg (pe.statusCode.getD 500))) := by
  refine ⟨fun env => rfl, fun env => rfl, ?_⟩
  intro env messages lastMsg c pe hlast hc hintent hstream hcomplete
  simp [conversation, hlast, hc, hintent, conversation_internal, general_chat,
    hstream, hcomplete]

/-- Witness for the amended C6: a concrete completion failure carrying
status 502 is reduced to a JSON error body with that status. -/
theorem handler_error_reduction_amended_witness :
    (conversation ⟨none, resetEnvOk, ⟨false, false, .ok "s", .error ⟨"boom", some 502⟩⟩⟩
        true (some [⟨"user", some "hello"⟩])).outcome
      = .response (.error "boom" 502) := by
  have h := handler_error_reduction_amended
  exact h.2.2 ⟨none, resetEnvOk, ⟨false, false, .ok "s", .error ⟨"boom", some 502⟩⟩⟩
    [⟨"user", some "hello"⟩] ⟨"user", some "hello"⟩ "hello" ⟨"boom", some 502⟩
    rfl rfl (by decide) rfl rfl

/-- If every message content is a string free of the `Username:` marker,
the reverse scan resolves no username. -/
theorem extract_username_scan_none (l : List Message)
    (h : ∀ m ∈ l, ∃ cc, m.content = some cc ∧ strContains cc "Username:" = false) :
    extract_username_scan l = .ok none := by
  induction l with
  | nil => rfl
  | cons m rest ih =>
    obtain ⟨cc, hcc, hnc⟩ := h m (by simp)
    simp only [extract_username_scan, hcc, hnc]
    simp only [Bool.false_eq_true, if_false]
    exact ih (fun m' hm' => h m' (by simp [hm']))

/-- Claim C7: if no username resolves — the model-based strategy sees the
literal `Unknown` reply, or no message content carries a `Username:`
marker — the flow returns the clarification request, makes no directory
call, and emits no audit record at all. -/
theorem no_username_clarification (env : ConvEnv) (messages : List Message)
    (lastMsg : Message) (c : String)
    (hlast : messages.getLast? = some lastMsg)
    (hc : lastMsg.content = some c)
    (hintent : strContains (pyLower c) "reset my password" = true)
    (hext : extract_username messages = .ok none) :
    conversation env true (some messages) =
      { outcome := .response (.assistant CLARIFY_MSG 200),
        events := [], resetInvoked := false } ∧
    (∀ reply, pyStrip reply = "Unknown" → extract_username_with_openai reply = none) ∧
    (∀ msgs2 : List Message,
      (∀ m ∈ msgs2, ∃ cc, m.content = some cc ∧ strContains cc "Username:" = false) →
      extract_username msgs2 = .ok none) := by
  refine ⟨?_, ?_, ?_⟩
  · rw [conversation_reset_dispatch env messages lastMsg c hlast hc hintent]
    unfold password_reset_branch
    rw [hext]
  · intro reply hreply
    simp [extract_username_with_openai, hreply]
  · intro msgs2 h2
    exact extract_username_scan_none msgs2.reverse
      (fun m hm => h2 m (List.mem_reverse.mp hm))

set_option maxRecDepth 100000 in
/-- Witness for C7: a concrete reset request with no `Username:` marker is
answered with the clarification message and an empty event trace. -/
theorem no_username_clarification_witness :
    conversation ⟨some ⟨some "alice"⟩, resetEnvOk, chatEnvA⟩ true
        (some [⟨"user", some "please reset my password"⟩]) =
      { outcome := .response (.assistant CLARIFY_MSG 200),
        events := [], resetInvoked := false } ∧
    (∀ reply, pyStrip reply = "Unknown" → extract_username_with_openai reply = none) ∧
    (∀ msgs2 : List Message,
      (∀ m ∈ msgs2, ∃ cc, m.content = some cc ∧ strContains cc "Username:" = false) →
      extract_username msgs2 = .ok none) :=
  no_username_clarification ⟨some ⟨some "alice"⟩, resetEnvOk, chatEnvA⟩
    [⟨"user", some "please reset my password"⟩]
    ⟨"user", some "please reset my password"⟩ "please reset my password"
    (by decide) (by decide) (by decide) (by decide)

/-- The weather request of claim C8. -/
def msgsSeattle : List Message :=
  [⟨"user", some "what\x27s the weather in Seattle"⟩]

/-- A concrete weather-API reply. -/
def wenvSeattle : WeatherEnv := ⟨200, ⟨"clear sky", "18.2", "55", "3.5"⟩⟩

set_option maxRecDepth 100000 in
/-- Claim C8, evaluated at the failing input: the module-level handler
routes `what\x27s the weather in Seattle` to the general chat flow with an
empty event trace — the weather adapter is never called — because the
weather-capable `conversation_internal` (the first definition) is shadowed
by the weather-free redefinition.  The shadowed definition itself would
have extracted the location `seattle` (lowered, trimmed remainder after
`weather in`) and called the adapter with exactly that value, as the claim
states. -/
theorem weather_branch_shadowed :
    conversation ⟨none, resetEnvOk, chatEnvA⟩ true (some msgsSeattle) =
      { outcome := .response (conversation_internal chatEnvA),
        events := [], resetInvoked := false } ∧
    (∀ loc, Event.weatherCall loc ∉
      (conversation ⟨none, resetEnvOk, chatEnvA⟩ true (some msgsSeattle)).events) ∧
    conversation_internal_weather chatEnvA wenvSeattle (some msgsSeattle) =
      (.assistant (get_weather wenvSeattle "seattle") 200,
        [.weatherCall "seattle"]) := by
  refine ⟨by decide, ?_, by decide⟩
  intro loc
  exact no_weather_event_in_conversation ⟨none, resetEnvOk, chatEnvA⟩ true
    (some msgsSeattle) loc

/-- Counterexample to C9: on a single-message history, a failing completion
call makes `generate_title` itself raise an `IndexError` from the fallback
access `conversation_messages[-2]` instead of returning normally. -/
theorem generate_title_short_history_raises_cex :
    generate_title (.error "completion failed") [⟨"user", some "hi"⟩]
      = .error "list index out of range" := rfl

/-- Claim C9 (amended): when the completion call during title generation
throws and the supplied history holds at least two messages, `generate_title`
returns normally with the content of the second-to-last message as the
degraded title; on histories with fewer than two messages the fallback
access itself raises an `IndexError` instead of returning. -/
theorem generate_title_degraded_fallback_amended (e : String)
    (pre : List Message) (m lastMsg : Message) :
    generate_title (.error e) (pre ++ [m, lastMsg]) = .ok m.content ∧
    (∀ e2 m1, generate_title (.error e2) [m1] = .error "list index out of range") ∧
    (∀ e3, generate_title (.error e3) ([] : List Message)
      = .error "list index out of range") := by
  refine ⟨?_, fun _ _ => rfl, fun _ => rfl⟩
  unfold generate_title
  simp

